import Mathlib

/-!
Verification of the CrowdFunding blockchain event indexer.

This file is a shallow embedding of the indexer core: the consumer state
updater (`src/indexer/consumer/state_updater.py`), the event handler and
worker dispatch (`src/indexer/consumer/event_handler.py`,
`src/indexer/consumer/main.py`), the rollback handler
(`src/indexer/consumer/rollback_handler.py`), the reconciliation handler
(`src/indexer/consumer/reconciliation_handler.py`), and the producer reorg
detector and block-range indexing loop
(`src/indexer/producer/reorg_detector.py`, `src/indexer/producer/main.py`,
`src/indexer/producer/factory_indexer.py`,
`src/indexer/producer/campaign_indexer.py`).

The relational store is modelled as in-memory lists of rows; one committed
transaction per bus message becomes one pure function `DB → DB`.  The SQLAlchemy
session used by the source is configured with `autoflush=False`
(`src/indexer/db/session.py`), so a query issued after in-session attribute
assignments evaluates its WHERE clause against the pre-assignment database
rows while returning the identity-mapped (already modified) objects; the
rollback embedding below reproduces that behaviour exactly.
-/

namespace CF

/-- Campaign lifecycle status; the `status` column stores one of the four
strings ACTIVE, SUCCESS, FAILED, WITHDRAWN. -/
inductive Status where
  | active
  | success
  | failed
  | withdrawn
deriving DecidableEq, Repr

/-- Row of the `campaigns` table (src/indexer/db/models.py, class Campaign). -/
structure Campaign where
  address : String
  factory_address : String
  creator_address : String
  goal_wei : Nat
  deadline_ts : Nat
  cid : String
  status : Status
  total_raised_wei : Nat
  withdrawn : Bool
  withdrawn_amount_wei : Option Nat
deriving DecidableEq, Repr

/-- Row of the `contributions` table (src/indexer/db/models.py, class
Contribution); `(campaign_address, donor_address)` is unique. -/
structure Contribution where
  campaign_address : String
  donor_address : String
  contributed_wei : Nat
  refunded_wei : Nat
deriving DecidableEq, Repr

/-- Decoded event arguments.  The source stores them as a JSON object and
reads each key with `event_data.get(key, default)`; an absent key is `none`
here and `Option.getD` plays the role of `.get(k, default)`. -/
structure EventData where
  campaign : Option String
  factory : Option String
  creator : Option String
  donor : Option String
  goal : Option Nat
  deadline : Option Nat
  cid : Option String
  amount : Option Nat
  newTotalRaised : Option Nat
deriving DecidableEq, Repr

/-- The all-absent event payload. -/
def EventData.empty : EventData :=
  ⟨none, none, none, none, none, none, none, none, none⟩

/-- Row of the `events` table (src/indexer/db/models.py, class Event);
`(chain_id, tx_hash, log_index)` is unique, `address` carries a foreign key
to `campaigns.address`. -/
structure EventRow where
  chain_id : Nat
  tx_hash : String
  log_index : Nat
  block_number : Nat
  block_hash : String
  address : String
  event_name : String
  event_data : EventData
  removed : Bool
deriving DecidableEq, Repr

/-- The relational store: `chains`, `campaigns`, `contributions`, `events`.
`chains` lists the chain ids present in the `chains` table (only the id
matters for the foreign-key checks modelled here). -/
structure DB where
  chains : List Nat
  campaigns : List Campaign
  contributions : List Contribution
  events : List EventRow
deriving DecidableEq, Repr

/-- Models `str(x).lower()` on an address string (character-wise lowercase). -/
def lower (s : String) : String :=
  String.mk (s.data.map Char.toLower)

/-- Models `session.query(Campaign).filter(Campaign.address == addr).first()`. -/
def findCampaign (db : DB) (addr : String) : Option Campaign :=
  db.campaigns.find? (fun c => c.address == addr)

/-- Mutate the campaign row keyed by `addr` (the primary key, so at most one
row matches in a well-formed store). -/
def updateCampaign (db : DB) (addr : String) (f : Campaign → Campaign) : DB :=
  { db with campaigns := db.campaigns.map (fun c => if c.address == addr then f c else c) }

/-- Models the query `session.query(Contribution).filter(campaign_address == ca, donor_address == da).first()`. -/
def findContribution (db : DB) (ca da : String) : Option Contribution :=
  db.contributions.find? (fun k => k.campaign_address == ca && k.donor_address == da)

/-- Mutate the contribution row keyed by `(ca, da)` (unique in a well-formed
store). -/
def updateContribution (db : DB) (ca da : String) (f : Contribution → Contribution) : DB :=
  let g := fun k =>
    if k.campaign_address == ca && k.donor_address == da then f k else k
  { db with contributions := db.contributions.map g }

/-- The fresh campaign row inserted by `apply_campaign_created`. -/
def ccRow (d : EventData) : Campaign :=
  { address := lower (d.campaign.getD "")
    factory_address := lower (d.factory.getD "")
    creator_address := lower (d.creator.getD "")
    goal_wei := d.goal.getD 0
    deadline_ts := d.deadline.getD 0
    cid := d.cid.getD ""
    status := .active
    total_raised_wei := 0
    withdrawn := false
    withdrawn_amount_wei := none }

/-- The per-row update of an existing campaign on `CampaignCreated`:
overwrite the constants; reset the status to ACTIVE unless it is SUCCESS or
WITHDRAWN. -/
def ccTouch (d : EventData) (c : Campaign) : Campaign :=
  if c.address == lower (d.campaign.getD "") then
    { c with
      factory_address := lower (d.factory.getD "")
      creator_address := lower (d.creator.getD "")
      goal_wei := d.goal.getD 0
      deadline_ts := d.deadline.getD 0
      cid := d.cid.getD ""
      status := if c.status ≠ .success ∧ c.status ≠ .withdrawn then .active else c.status }
  else c

/-- The campaign-table effect of `apply_campaign_created`. -/
def ccUpd (d : EventData) (l : List Campaign) : List Campaign :=
  match l.find? (fun c => c.address == lower (d.campaign.getD "")) with
  | none => l ++ [ccRow d]
  | some _ => l.map (ccTouch d)

/-- Embeds `ConsumerStateUpdater.apply_campaign_created`
(src/indexer/consumer/state_updater.py lines 120-164): insert the campaign
if absent; otherwise overwrite the constants and reset the status to ACTIVE
unless it is SUCCESS or WITHDRAWN. -/
def apply_campaign_created (d : EventData) (db : DB) : DB :=
  { db with campaigns := ccUpd d db.campaigns }

/-- The per-row campaign update a `DonationReceived` performs (the function
`apply_donation_received` passes to the keyed campaign update): set
`total_raised_wei := newTotalRaised` and move ACTIVE to SUCCESS when the
goal is reached. -/
def donTouch (d : EventData) (c : Campaign) : Campaign :=
  if c.address == lower (d.campaign.getD "") then
    (let c1 := { c with total_raised_wei := d.newTotalRaised.getD 0 }
     if d.newTotalRaised.getD 0 ≥ c1.goal_wei ∧ c1.status = Status.active
     then { c1 with status := Status.success } else c1)
  else c

/-- The per-row campaign update a `Withdrawn` performs: set
`withdrawn=true, withdrawn_amount_wei=amount, status=WITHDRAWN`
unconditionally. -/
def wdTouch (d : EventData) (c : Campaign) : Campaign :=
  if c.address == lower (d.campaign.getD "") then
    { c with withdrawn := true, withdrawn_amount_wei := some (d.amount.getD 0),
             status := Status.withdrawn }
  else c

/-- Embeds `ConsumerStateUpdater.apply_donation_received`
(src/indexer/consumer/state_updater.py lines 166-215): upsert the
contribution, set `total_raised_wei` to the `newTotalRaised` of the event, and
move ACTIVE to SUCCESS when the goal is reached.  An unknown campaign is a
warning and no change. -/
def apply_donation_received (d : EventData) (db : DB) : DB :=
  let campaign_address := lower (d.campaign.getD "")
  let donor_address := lower (d.donor.getD "")
  let amount := d.amount.getD 0
  let new_total_raised := d.newTotalRaised.getD 0
  match findCampaign db campaign_address with
  | none => db
  | some _ =>
      let db1 :=
        match findContribution db campaign_address donor_address with
        | none =>
            { db with contributions := db.contributions ++
                [{ campaign_address := campaign_address
                   donor_address := donor_address
                   contributed_wei := amount
                   refunded_wei := 0 }] }
        | some _ =>
            updateContribution db campaign_address donor_address
              (fun k => { k with contributed_wei := k.contributed_wei + amount })
      updateCampaign db1 campaign_address (fun c =>
        let c1 := { c with total_raised_wei := new_total_raised }
        if new_total_raised ≥ c1.goal_wei ∧ c1.status = .active
        then { c1 with status := .success } else c1)

/-- Embeds `ConsumerStateUpdater.apply_withdrawn`
(src/indexer/consumer/state_updater.py lines 217-241): set
`withdrawn=true, withdrawn_amount_wei=amount, status=WITHDRAWN`
unconditionally on the current status.  An unknown campaign is a warning and
no change. -/
def apply_withdrawn (d : EventData) (db : DB) : DB :=
  let campaign_address := lower (d.campaign.getD "")
  let amount := d.amount.getD 0
  match findCampaign db campaign_address with
  | none => db
  | some _ =>
      updateCampaign db campaign_address (fun c =>
        { c with withdrawn := true, withdrawn_amount_wei := some amount, status := .withdrawn })

/-- Embeds `ConsumerStateUpdater.apply_refunded`
(src/indexer/consumer/state_updater.py lines 243-276): add the refund amount
to `refunded_wei`, leaving `contributed_wei` intact; no bound against the
contributed amount is checked.  An unknown contribution is a warning and no
change. -/
def apply_refunded (d : EventData) (db : DB) : DB :=
  let campaign_address := lower (d.campaign.getD "")
  let donor_address := lower (d.donor.getD "")
  let amount := d.amount.getD 0
  match findContribution db campaign_address donor_address with
  | none => db
  | some _ =>
      updateContribution db campaign_address donor_address
        (fun k => { k with refunded_wei := k.refunded_wei + amount })

/-- Embeds `ConsumerStateUpdater.apply_event`
(src/indexer/consumer/state_updater.py lines 278-300): dispatch on the event
name; unknown names are a warning and no change. -/
def apply_event (event_type : String) (d : EventData) (db : DB) : DB :=
  if event_type = "CampaignCreated" then apply_campaign_created d db
  else if event_type = "DonationReceived" then apply_donation_received d db
  else if event_type = "Withdrawn" then apply_withdrawn d db
  else if event_type = "Refunded" then apply_refunded d db
  else db

/-! Section: Event insertion and the consumer worker

`ConsumerStateUpdater.insert_event` (src/indexer/consumer/state_updater.py
lines 26-118) first queries for an existing `(chain_id, tx_hash, log_index)`
row; if present it returns False (duplicate).  Otherwise it inserts and
flushes; the flush can raise an IntegrityError for the `chain_id` or
`address` foreign keys, which `insert_event` re-raises after a
`session.rollback()`. -/

/-- Result of `insert_event`: row inserted, duplicate found by the pre-insert
query, or foreign-key IntegrityError raised on flush. -/
inductive InsertResult where
  | inserted
  | duplicate
  | fkChain
  | fkAddress
deriving DecidableEq, Repr

/-- Duplicate check of `insert_event`: does a row with this
`(chain_id, tx_hash, log_index)` exist? -/
def eventExists (db : DB) (cid : Nat) (tx : String) (li : Nat) : Bool :=
  db.events.any (fun e => e.chain_id == cid && e.tx_hash == tx && e.log_index == li)

/-- Embeds `ConsumerStateUpdater.insert_event`: the duplicate query runs first; on
insert, the flush checks the `chains.chain_id` and `campaigns.address`
foreign keys (`events.address` is a non-null string in every message the
handler builds, so an address that is no campaign violates the key). -/
def insert_event (cid : Nat) (tx_hash : String) (log_index block_number : Nat)
    (block_hash address event_name : String) (event_data : EventData)
    (db : DB) : DB × InsertResult :=
  if eventExists db cid tx_hash log_index then (db, .duplicate)
  else if cid ∉ db.chains then (db, .fkChain)
  else if findCampaign db address = none then (db, .fkAddress)
  else
    ({ db with events := db.events ++
        [{ chain_id := cid
           tx_hash := tx_hash
           log_index := log_index
           block_number := block_number
           block_hash := block_hash
           address := address
           event_name := event_name
           event_data := event_data
           removed := false }] }, .inserted)

/-- An `event` message from the bus (src/indexer/messaging/schema.py,
EventMessage). -/
structure EventMsg where
  event_type : String
  chain_id : Nat
  block_number : Nat
  block_hash : String
  tx_hash : String
  log_index : Nat
  address : String
  event_data : EventData
deriving DecidableEq, Repr

/-- Broker outcome chosen by `ConsumerWorker._on_message`
(src/indexer/consumer/main.py lines 107-156). -/
inductive Outcome where
  | ack
  | nackRequeue
  | rejectDLQ
deriving DecidableEq, Repr

/-- The event-row address the handler uses: for `CampaignCreated` with a
non-empty `event_data.campaign`, the lowercased campaign address; otherwise
the address carried by the message itself. -/
def addrOf (m : EventMsg) : String :=
  if m.event_type = "CampaignCreated" ∧ m.event_data.campaign.getD "" ≠ ""
  then lower (m.event_data.campaign.getD "") else m.address

/-- The pre-insert flush: for `CampaignCreated` the campaign upsert is
applied before the event row is inserted. -/
def preDB (m : EventMsg) (db : DB) : DB :=
  if m.event_type = "CampaignCreated" then apply_campaign_created m.event_data db else db

/-- The event row built by `insert_event` from a message. -/
def insertedRow (cid : Nat) (m : EventMsg) : EventRow :=
  { chain_id := cid
    tx_hash := m.tx_hash
    log_index := m.log_index
    block_number := m.block_number
    block_hash := m.block_hash
    address := addrOf m
    event_name := m.event_type
    event_data := m.event_data
    removed := false }

/-- Embeds `EventHandler._handle_event_message` composed with
`ConsumerWorker._on_message` for a well-formed event message
(src/indexer/consumer/event_handler.py lines 94-163,
src/indexer/consumer/main.py lines 107-156).

The handler rewrites the address of a `CampaignCreated` to the campaign
address from `event_data`, pre-applies the campaign upsert (flushing it so
the foreign key is satisfied), then calls `insert_event`:
* duplicate: the handler returns True without touching the session further,
  but leaving the `with get_session()` block commits the session
  (src/indexer/db/session.py lines 72-80), so the pre-applied campaign
  upsert of a duplicate `CampaignCreated` is committed; the worker acks;
* foreign-key IntegrityError: `get_session` rolls the transaction back and
  re-raises; `EventHandler.handle_message` re-raises IntegrityError, and
  `_on_message` catches IntegrityError and ACKS the message (the `except`
  comment says "duplicate", but the duplicate path returns False without
  raising, so only foreign-key violations reach this branch);
* inserted: the state update is applied (skipped for `CampaignCreated`,
  already applied above), the transaction commits, the worker acks.

The chain id `cid` of the consumer is `config.chain_id`
(`ConsumerStateUpdater.__init__`); the `chain_id` field of the message is not
used by the insert. -/
def handle_event_message (cid : Nat) (m : EventMsg) (db : DB) : DB × Outcome :=
  let db1 := preDB m db
  match insert_event cid m.tx_hash m.log_index m.block_number m.block_hash
      (addrOf m) m.event_type m.event_data db1 with
  | (db2, .duplicate) => (db2, .ack)
  | (_, .fkChain) => (db, .ack)
  | (_, .fkAddress) => (db, .ack)
  | (db2, _) =>
      let db3 :=
        if m.event_type ≠ "CampaignCreated" then apply_event m.event_type m.event_data db2
        else db2
      (db3, .ack)

/-! Section: Reconciliation handler -/

/-- The sweep condition of `ReconciliationHandler._mark_expired_campaigns`
(src/indexer/consumer/reconciliation_handler.py lines 42-79): the query
filters `status=ACTIVE AND deadline_ts < now AND withdrawn=false` and the
loop body additionally requires `total_raised_wei < goal_wei`. -/
def expiredUnmet (now : Nat) (c : Campaign) : Prop :=
  c.status = .active ∧ c.deadline_ts < now ∧ c.withdrawn = false ∧
    c.total_raised_wei < c.goal_wei

instance (now : Nat) (c : Campaign) : Decidable (expiredUnmet now c) := by
  unfold expiredUnmet; infer_instance

/-- Embeds `ReconciliationHandler._mark_expired_campaigns`: set `status=FAILED` on
every campaign matching `expiredUnmet now`; `now` is the wall-clock Unix
timestamp read inside the handler. -/
def reconcile (now : Nat) (db : DB) : DB :=
  let g := fun c => if expiredUnmet now c then { c with status := Status.failed } else c
  { db with campaigns := db.campaigns.map g }

/-! Section: Rollback handler

`RollbackHandler.handle_rollback` (src/indexer/consumer/rollback_handler.py
lines 28-64) loads every non-removed event of the range, sets
`removed = True` on each, and calls `_rebuild_state` (lines 66-146) in the
same session.  Because the sessionmaker has `autoflush=False`
(src/indexer/db/session.py line 38), the replay query of `_rebuild_state`
(`removed == False`, same range) is evaluated against the not-yet-flushed
database rows and therefore returns exactly the events that were just marked
removed (as identity-mapped objects).  `_rebuild_state` then resets the
campaigns and contributions referenced by those events and replays the same
events in `(block_number, log_index)` order. -/

/-- Range filter shared by the removal mark and the replay query of the
rollback handler. -/
def inRollbackRange (cid fromB toB : Nat) (e : EventRow) : Bool :=
  decide (e.chain_id = cid ∧ fromB ≤ e.block_number ∧ e.block_number ≤ toB ∧
    e.removed = false)

/-- The `(block_number, log_index)` order used by the replay `ORDER BY`. -/
def blockLogLeb (a b : EventRow) : Bool :=
  decide (a.block_number < b.block_number ∨
    (a.block_number = b.block_number ∧ a.log_index ≤ b.log_index))

/-- Insert an event into a list sorted by `blockLogLeb`, after all entries
that compare at-or-before it (a stable insertion). -/
def insertByBlockLog (e : EventRow) : List EventRow → List EventRow
  | [] => [e]
  | x :: xs => if blockLogLeb x e then x :: insertByBlockLog e xs else e :: x :: xs

/-- Stable sort by `(block_number, log_index)`, the replay ordering. -/
def sortByBlockLog (l : List EventRow) : List EventRow :=
  l.foldr insertByBlockLog []

/-- The affected-campaign set of `_rebuild_state`:
`{e.address.lower() for e in events if e.address}`. -/
def affectedAddrs (replay : List EventRow) : List String :=
  (replay.filterMap (fun e => if e.address ≠ "" then some (lower e.address) else none)).dedup

/-- The campaign and contribution resets of `_rebuild_state` (lines 98-121):
affected campaigns get `total_raised_wei=0, withdrawn=false,
withdrawn_amount_wei=null` and ACTIVE unless WITHDRAWN; their contributions
are zeroed. -/
def resetForRollback (addrs : List String) (db : DB) : DB :=
  let gc := fun (c : Campaign) =>
    if addrs.contains c.address then
      { c with total_raised_wei := 0, withdrawn := false, withdrawn_amount_wei := none,
               status := if c.status ≠ .withdrawn then Status.active else c.status }
    else c
  let gk := fun (k : Contribution) =>
    if addrs.contains k.campaign_address then
      { k with contributed_wei := 0, refunded_wei := 0 }
    else k
  { db with campaigns := db.campaigns.map gc, contributions := db.contributions.map gk }

/-- Embeds `RollbackHandler.handle_rollback` followed by `_rebuild_state`, as one
committed transaction.  `replay` is the list the replay query actually
returns under `autoflush=False`: the events of the range that were
non-removed when the transaction began (exactly the ones being marked). -/
def handle_rollback (cid fromB toB : Nat) (db : DB) : DB :=
  let replay := sortByBlockLog (db.events.filter (inRollbackRange cid fromB toB))
  let markFn := fun (e : EventRow) =>
    if inRollbackRange cid fromB toB e then { e with removed := true } else e
  let db1 := { db with events := db.events.map markFn }
  if replay.isEmpty then db1
  else
    let db2 := resetForRollback (affectedAddrs replay) db1
    replay.foldl (fun s e => apply_event e.event_name e.event_data s) db2

/-- The list of events the rollback replay re-applies (the `replay` query of
`handle_rollback`, under `autoflush=False`). -/
def rollbackReplayList (cid fromB toB : Nat) (db : DB) : List EventRow :=
  sortByBlockLog (db.events.filter (inRollbackRange cid fromB toB))

/-- The store after step 1 of the rollback: the in-range events marked
`removed=true`. -/
def rollbackMarked (cid fromB toB : Nat) (db : DB) : DB :=
  { db with events := db.events.map (fun (e : EventRow) =>
      if inRollbackRange cid fromB toB e then { e with removed := true } else e) }

/-- The store from which the rollback replay starts: marked events, affected
campaigns and contributions reset. -/
def rollbackResetState (cid fromB toB : Nat) (db : DB) : DB :=
  resetForRollback (affectedAddrs (rollbackReplayList cid fromB toB db))
    (rollbackMarked cid fromB toB db)

/-- Holds when every `Refunded` of the sequence, applied in order from the
given state, asks back at most the slack `contributed_wei − refunded_wei` of
its contribution row at its own application time — the per-refund bound of
the amended net-nonnegativity invariant, evaluated along the replay fold. -/
def replayRespectsSlack : List EventRow → DB → Prop
  | [], _ => True
  | e :: rest, db =>
      (e.event_name = "Refunded" →
        ∀ k ∈ db.contributions,
          k.campaign_address = lower (e.event_data.campaign.getD "") →
          k.donor_address = lower (e.event_data.donor.getD "") →
          k.refunded_wei + e.event_data.amount.getD 0 ≤ k.contributed_wei)
      ∧ replayRespectsSlack rest (apply_event e.event_name e.event_data db)

instance instDecReplayRespectsSlack :
    (l : List EventRow) → (db : DB) → Decidable (replayRespectsSlack l db)
  | [], _ => isTrue True.intro
  | e :: rest, db =>
      haveI : Decidable (replayRespectsSlack rest (apply_event e.event_name e.event_data db)) :=
        instDecReplayRespectsSlack rest (apply_event e.event_name e.event_data db)
      inferInstanceAs (Decidable ((e.event_name = "Refunded" →
        ∀ k ∈ db.contributions,
          k.campaign_address = lower (e.event_data.campaign.getD "") →
          k.donor_address = lower (e.event_data.donor.getD "") →
          k.refunded_wei + e.event_data.amount.getD 0 ≤ k.contributed_wei) ∧
        replayRespectsSlack rest (apply_event e.event_name e.event_data db)))

/-- Consumer dispatch for the two non-rollback message kinds
(`EventHandler.handle_message` cases "event" and "reconciliation"); `now` is
the wall clock observed by a reconciliation run. -/
inductive NonRollbackMsg where
  | event (m : EventMsg)
  | recon (now : Nat)
deriving DecidableEq, Repr

/-- Apply one non-rollback message as the consumer does (one transaction). -/
def applyNonRollback (cid : Nat) (msg : NonRollbackMsg) (db : DB) : DB :=
  match msg with
  | .event m => (handle_event_message cid m db).1
  | .recon now => reconcile now db

/-! Section: Producer: reorg detector and block-range indexing

The chain is modelled as the log stream of the node in canonical order plus a
block-hash oracle.  `eth_getLogs` (src/indexer/eth/client.py) filters
server-side by address, leading topic and block range, returning the
node order; topics are identified here by their event names (the source
computes the keccak topic hash from the event signature,
src/indexer/eth/topics.py, a bijection between the four known signatures
and their hashes). -/

/-- A raw chain log as filtered by `eth_getLogs`. -/
structure ChainLog where
  address : String
  topic : String
  blockNumber : Nat
  logIndex : Nat
  txHash : String
deriving DecidableEq, Repr

/-- The observed chain: log stream (in the return order of the node) and block
hashes. -/
structure ChainView where
  logs : List ChainLog
  hashAt : Nat → String

/-- Models `EthereumClient.get_logs(address, from, to, topics=[topic])`. -/
def getLogs (ch : ChainView) (addr topic : String) (fromB toB : Nat) : List ChainLog :=
  ch.logs.filter (fun l =>
    l.address == addr && l.topic == topic &&
      decide (fromB ≤ l.blockNumber) && decide (l.blockNumber ≤ toB))

/-- Embeds `get_all_campaign_topics()` (src/indexer/eth/topics.py lines 80-90), in
source order: DonationReceived, Withdrawn, Refunded. -/
def campaignTopics : List String :=
  ["DonationReceived", "Withdrawn", "Refunded"]

/-- The sync cursor row (`sync_state` table). -/
structure SyncSt where
  lastBlock : Nat
  lastBlockHash : Option String
deriving DecidableEq, Repr

/-- Embeds `ReorgDetector.check_reorg` (src/indexer/producer/reorg_detector.py
lines 34-69): only when the cursor field `last_block` equals the checked block
and a hash is stored is the chain hash fetched and compared
(case-insensitively); every other case reports no reorg. -/
def check_reorg (ch : ChainView) (sync : SyncSt) (block_number : Nat) : Bool :=
  if sync.lastBlock < block_number then false
  else if sync.lastBlock = block_number then
    match sync.lastBlockHash with
    | some stored => lower stored ≠ lower (ch.hashAt block_number)
    | none => false
  else false

/-- Embeds `ReorgDetector.check_and_handle_reorg` (lines 129-145) together with
`handle_reorg` and `_update_sync_state_for_rollback` (lines 71-127),
assuming the rollback publish succeeds: the range is
`from = max(0, B - rollback_blocks)` to `to = B` (Nat subtraction is the
`max(0, ...)`), and the cursor is rewound to `max(0, from - 1)` with the
hash refreshed there (`None` at height 0).  Returns the new cursor and the
published rollback range, if any. -/
def check_and_handle_reorg (ch : ChainView) (rollback_blocks : Nat)
    (sync : SyncSt) (block_number : Nat) : SyncSt × Option (Nat × Nat) :=
  if check_reorg ch sync block_number then
    let toB := block_number
    let fromB := block_number - rollback_blocks
    let newLast := fromB - 1
    ({ lastBlock := newLast
       lastBlockHash := if 0 < newLast then some (ch.hashAt newLast) else none },
     some (fromB, toB))
  else (sync, none)

/-- One batch of publishes: `ProducerFactoryIndexer.index_block_range`
(src/indexer/producer/factory_indexer.py lines 38-111) publishes the
CampaignCreated logs of the factory in the order `get_logs` returns them,
then `ProducerCampaignIndexer.index_block_range`
(src/indexer/producer/campaign_indexer.py lines 51-149) iterates the known
campaign addresses and, per address, fetches one `get_logs` stream per
campaign topic, extending one flat list in that loop order — the combined
list is never re-sorted.  `pubOk` is the broker confirm outcome of each
publish (`RabbitMQPublisher.publish` returns False after its retries are
exhausted); a failed publish is logged and skipped, the loop continues. -/
def publishedBatch (ch : ChainView) (pubOk : ChainLog → Bool)
    (factory : String) (addrs : List String) (fromB toB : Nat) : List ChainLog :=
  let factoryLogs := getLogs ch factory "CampaignCreated" fromB toB
  let campaignLogs :=
    addrs.flatMap (fun a => campaignTopics.flatMap (fun t => getLogs ch a t fromB toB))
  (factoryLogs ++ campaignLogs).filter pubOk

/-- Accumulated result of `index_block_range` (src/indexer/producer/main.py
lines 118-180): final cursor, successfully published event logs, published
rollback ranges. -/
structure ProducerRun where
  sync : SyncSt
  published : List ChainLog
  rollbacks : List (Nat × Nat)
deriving Repr

/-- The `while current <= to_block` loop body of `index_block_range`
(src/indexer/producer/main.py lines 145-178), with `fuel` bounding the
number of iterations (the loop always terminates because `current` moves
past `batch_end` or past the rewound cursor).  Each iteration checks
`check_and_handle_reorg(current)` — note: at `current`, the next block to
process, not at the cursor block — and on no-reorg publishes the batch and
advances the cursor to `batch_end` unconditionally (the publish success
counts returned by the indexers are never compared with the number of logs
fetched). -/
def indexBlockRangeLoop (ch : ChainView) (pubOk : ChainLog → Bool)
    (factory : String) (addrs : List String) (rollback_blocks batch_size : Nat)
    (toB : Nat) : Nat → Nat → SyncSt → ProducerRun
  | 0, _, sync => ⟨sync, [], []⟩
  | fuel + 1, current, sync =>
    if current ≤ toB then
      let batch_end := min (current + batch_size - 1) toB
      match check_and_handle_reorg ch rollback_blocks sync current with
      | (sync1, some r) =>
          let rest := indexBlockRangeLoop ch pubOk factory addrs rollback_blocks
            batch_size toB fuel (sync1.lastBlock + 1) sync1
          ⟨rest.sync, rest.published, r :: rest.rollbacks⟩
      | (_, none) =>
          let batch := publishedBatch ch pubOk factory addrs current batch_end
          let sync2 : SyncSt :=
            { lastBlock := batch_end, lastBlockHash := some (ch.hashAt batch_end) }
          let rest := indexBlockRangeLoop ch pubOk factory addrs rollback_blocks
            batch_size toB fuel (batch_end + 1) sync2
          ⟨rest.sync, batch ++ rest.published, rest.rollbacks⟩
    else ⟨sync, [], []⟩

/-- Embeds `index_block_range(config, ..., from_block, to_block)` as called by the
polling loop `run_producer` (src/indexer/producer/main.py lines 207-224):
`from_block = sync.last_block + 1`. -/
def index_block_range (ch : ChainView) (pubOk : ChainLog → Bool)
    (factory : String) (addrs : List String) (rollback_blocks batch_size : Nat)
    (sync : SyncSt) (fromB toB : Nat) : ProducerRun :=
  indexBlockRangeLoop ch pubOk factory addrs rollback_blocks batch_size toB
    (toB + 2) fromB sync

/-! Section: Properties named by the specification -/

/-- Invariant of §3/§8 of the spec: every contribution row satisfies
`contributed_wei ≥ refunded_wei`. -/
def contribOK (db : DB) : Prop :=
  ∀ k ∈ db.contributions, k.refunded_wei ≤ k.contributed_wei

instance (db : DB) : Decidable (contribOK db) := by
  unfold contribOK; infer_instance

/-- The status DAG of the spec (§3 invariant 2): `ACTIVE → SUCCESS →
WITHDRAWN`, `ACTIVE → FAILED`; an unchanged status is allowed. -/
def dagEdge (s t : Status) : Prop :=
  t = s ∨ (s = .active ∧ t = .success) ∨ (s = .success ∧ t = .withdrawn) ∨
    (s = .active ∧ t = .failed)

instance (s t : Status) : Decidable (dagEdge s t) := by
  unfold dagEdge; infer_instance

/-- The status transitions the code actually performs on a non-rollback
message: the DAG edges, plus `Withdrawn` forcing WITHDRAWN from any status
(in particular FAILED → WITHDRAWN and ACTIVE → WITHDRAWN), plus a
re-delivered `CampaignCreated` resetting FAILED → ACTIVE. -/
def codeEdge (s t : Status) : Prop :=
  t = s ∨ (s = .active ∧ t = .success) ∨ (s = .active ∧ t = .failed) ∨
    t = .withdrawn ∨ (s = .failed ∧ t = .active)

instance (s t : Status) : Decidable (codeEdge s t) := by
  unfold codeEdge; infer_instance

/-- The `(block_number, log_index)` order on published chain logs. -/
def chainLogLe (a b : ChainLog) : Prop :=
  a.blockNumber < b.blockNumber ∨
    (a.blockNumber = b.blockNumber ∧ a.logIndex ≤ b.logIndex)

instance (a b : ChainLog) : Decidable (chainLogLe a b) := by
  unfold chainLogLe; infer_instance

/-- The ordering the spec demands of a published batch (§4.7 step 4): any
two logs of the same contract address appear in `(block_number, log_index)`
ascending order. -/
def sameAddrOrdered (l : List ChainLog) : Prop :=
  l.Pairwise (fun a b => a.address = b.address → chainLogLe a b)

instance (l : List ChainLog) : Decidable (sameAddrOrdered l) := by
  unfold sameAddrOrdered; infer_instance

/-- The ordering the producer actually guarantees: any two logs of the same
address and the same event topic appear in `(block_number, log_index)`
ascending order. -/
def sameAddrTopicOrdered (l : List ChainLog) : Prop :=
  l.Pairwise (fun a b => a.address = b.address ∧ a.topic = b.topic → chainLogLe a b)

instance (l : List ChainLog) : Decidable (sameAddrTopicOrdered l) := by
  unfold sameAddrTopicOrdered; infer_instance

/-! Section: Concrete fixtures (spec §8 scenario values) -/

/-- The `CampaignCreated` arguments of spec scenario 1 (addresses shortened). -/
def dCreate : EventData :=
  { campaign := some "0xcafe", factory := some "0xfac", creator := some "0xc1",
    donor := none, goal := some 10000000000000000000, deadline := some 1735689600,
    cid := some "QmT", amount := none, newTotalRaised := none }

/-- The `CampaignCreated` bus message (block 99). -/
def msgCreate : EventMsg :=
  { event_type := "CampaignCreated", chain_id := 31337, block_number := 99,
    block_hash := "0xb99", tx_hash := "0xt1", log_index := 0, address := "0xfac",
    event_data := dCreate }

/-- Store seeded with the chain row only. -/
def dbInit : DB := { chains := [31337], campaigns := [], contributions := [], events := [] }

/-- State after the `CampaignCreated` is consumed. -/
def db1 : DB := (handle_event_message 31337 msgCreate dbInit).1

/-- First `DonationReceived` arguments of spec scenario 1: 2·10¹⁸ wei. -/
def dDon : EventData :=
  { campaign := some "0xcafe", factory := none, creator := none, donor := some "0xd1",
    goal := none, deadline := none, cid := none, amount := some 2000000000000000000,
    newTotalRaised := some 2000000000000000000 }

/-- The `DonationReceived` bus message at block 100 (spec scenario 3). -/
def msgDon : EventMsg :=
  { event_type := "DonationReceived", chain_id := 31337, block_number := 100,
    block_hash := "0xb100", tx_hash := "0xt2", log_index := 0, address := "0xcafe",
    event_data := dDon }

/-- State after creation and first donation (the input of spec scenario 3). -/
def db2 : DB := (handle_event_message 31337 msgDon db1).1

/-- Result of consuming rollback `{from=100, to=100}` on `db2`. -/
def rbState : DB := handle_rollback 31337 100 100 db2

/-- State `db1` after a reconciliation past the deadline: the campaign is FAILED
(goal unmet), the `CampaignCreated` event row is still present — the state
in which a late duplicate `CampaignCreated` can arrive. -/
def dbFailed : DB := reconcile 1767225600 db1

/-- A `Withdrawn` bus message for the campaign (block 101). -/
def msgWd : EventMsg :=
  { event_type := "Withdrawn", chain_id := 31337, block_number := 101,
    block_hash := "0xb101", tx_hash := "0xt3", log_index := 0, address := "0xcafe",
    event_data := { campaign := some "0xcafe", factory := none, creator := none,
                    donor := none, goal := none, deadline := none, cid := none,
                    amount := some 10000000000000000000, newTotalRaised := none } }

/-- A `Refunded` bus message asking back 5·10¹⁸ wei — more than the 2·10¹⁸
the donor contributed. -/
def msgRefund : EventMsg :=
  { event_type := "Refunded", chain_id := 31337, block_number := 101,
    block_hash := "0xb101", tx_hash := "0xt4", log_index := 0, address := "0xcafe",
    event_data := { campaign := some "0xcafe", factory := none, creator := none,
                    donor := some "0xd1", goal := none, deadline := none, cid := none,
                    amount := some 5000000000000000000, newTotalRaised := none } }

/-- A chain view whose hash at block 100 no longer matches the stored
cursor hash. -/
def reorgChain : ChainView :=
  { logs := [], hashAt := fun n => if n = 100 then "0xnew" else "0xh" }

/-- Cursor pointing at block 100 with the stale hash. -/
def syncAt100 : SyncSt := { lastBlock := 100, lastBlockHash := some "0xold" }

/-- A donation log at block 3 awaiting publication. -/
def donLog : ChainLog :=
  { address := "0xcafe", topic := "DonationReceived", blockNumber := 3,
    logIndex := 0, txHash := "0xt9" }

/-- Chain carrying just `donLog`. -/
def chainOneLog : ChainView := { logs := [donLog], hashAt := fun _ => "0xh" }

/-- Fresh cursor. -/
def sync0 : SyncSt := { lastBlock := 0, lastBlockHash := none }

/-- A `Withdrawn` log of campaign `0xa` at block 5. -/
def wLog : ChainLog :=
  { address := "0xa", topic := "Withdrawn", blockNumber := 5, logIndex := 0,
    txHash := "0xw" }

/-- A `DonationReceived` log of campaign `0xa` at block 10. -/
def dLog : ChainLog :=
  { address := "0xa", topic := "DonationReceived", blockNumber := 10, logIndex := 0,
    txHash := "0xd" }

/-- Chain carrying the two `0xa` logs in canonical ascending order. -/
def chainTwoLogs : ChainView := { logs := [wLog, dLog], hashAt := fun _ => "0xh" }

/-- The campaign row of `db1`: freshly created, ACTIVE, nothing raised. -/
def campActive : Campaign :=
  { address := "0xcafe", factory_address := "0xfac", creator_address := "0xc1",
    goal_wei := 10000000000000000000, deadline_ts := 1735689600, cid := "QmT",
    status := .active, total_raised_wei := 0, withdrawn := false,
    withdrawn_amount_wei := none }

/-- The campaign row of `dbFailed`: reconciliation marked it FAILED. -/
def campFailedRow : Campaign := { campActive with status := .failed }

/-- The campaign row after the `Withdrawn` of `msgWd` lands on `dbFailed`. -/
def campWithdrawnRow : Campaign :=
  { campActive with
    status := .withdrawn
    withdrawn := true
    withdrawn_amount_wei := some 10000000000000000000 }

/-- A `Refunded` message asking back 1·10¹⁸ wei, within the 2·10¹⁸ net
contribution of the donor. -/
def msgRefundSmall : EventMsg :=
  { event_type := "Refunded", chain_id := 31337, block_number := 101,
    block_hash := "0xb101", tx_hash := "0xt5", log_index := 0, address := "0xcafe",
    event_data := { campaign := some "0xcafe", factory := none, creator := none,
                    donor := some "0xd1", goal := none, deadline := none, cid := none,
                    amount := some 1000000000000000000, newTotalRaised := none } }

/-- State after creation (block 99), the 2·10¹⁸ donation (block 100) and the
in-slack 1·10¹⁸ refund (block 101): its event log contains a `Refunded` that
a rollback over `[100, 101]` re-applies. -/
def dbRefunded : DB := (handle_event_message 31337 msgRefundSmall db2).1

/-! Section: C1: rollback over a block range -/

/-- C1: evaluating the code at the scenario of the claim itself (one
CampaignCreated at block 99, one DonationReceived of 2·10¹⁸ at block 100,
rollback `{from=100, to=100}`): the donation event row is marked
`removed=true` and the campaign stays ACTIVE, but — because the replay query
runs before the removal marks are flushed (`autoflush=False`) and therefore
returns the very events just marked removed — the handler replays the
removed donation after the reset, leaving `contributed_wei = 2·10¹⁸` and
`total_raised_wei = 2·10¹⁸` where the claim (and spec §4.11/§8 scenario 3)
requires `0`. -/
theorem C1_rollback_replays_removed_events :
    rbState.events.map (fun e => (e.block_number, e.removed)) = [(99, false), (100, true)] ∧
    findContribution rbState "0xcafe" "0xd1" =
      some { campaign_address := "0xcafe", donor_address := "0xd1",
             contributed_wei := 2000000000000000000, refunded_wei := 0 } ∧
    (findCampaign rbState "0xcafe").map Campaign.total_raised_wei =
      some 2000000000000000000 ∧
    (findCampaign rbState "0xcafe").map Campaign.status = some Status.active := by
  decide

/-! Section: C3: foreign-key violation on `events.address` -/

/-- C3: a `DonationReceived` whose campaign is missing raises the
`events_address_fkey` IntegrityError, which `insert_event` re-raises and
`ConsumerWorker._on_message` catches in its `except IntegrityError` branch —
acknowledging the message on its first delivery instead of nack+requeue.
The message is dropped silently with no state change, contradicting the
claim that it is never acknowledged. -/
theorem C3_fk_violation_is_acked :
    handle_event_message 31337 msgDon dbInit = (dbInit, Outcome.ack) ∧
    findCampaign dbInit "0xcafe" = none := by
  decide

/-! Section: C4: reorg detection on poll -/

/-- C4: evaluating the code at a poll where the cursor sits at block 100
with stored hash `0xold` while the chain now reports `0xnew` at height 100.
`run_producer` calls `index_block_range` with `from_block = last_block + 1 =
101`, and the loop checks `check_and_handle_reorg(current)`; since
`sync.last_block < current`, `check_reorg` returns False without ever
fetching a hash — no rollback is published and the cursor advances to 105.
Moreover, even when the check is invoked at the cursor block itself (as the
repo test does), the published range is `[max(0, B − rollback_window),
B] = [50, 100]`, not the claimed `[max(0, B − rollback_window + 1), B] =
[51, 100]`. -/
theorem C4_poll_never_declares_reorg :
    (index_block_range reorgChain (fun _ => true) "0xfac" [] 50 2000
        syncAt100 101 105).rollbacks = [] ∧
    (index_block_range reorgChain (fun _ => true) "0xfac" [] 50 2000
        syncAt100 101 105).sync =
      { lastBlock := 105, lastBlockHash := some "0xh" } ∧
    check_reorg reorgChain syncAt100 100 = true ∧
    (check_and_handle_reorg reorgChain 50 syncAt100 100).2 = some (50, 100) := by
  decide

/-! Section: C5: publish failure and the cursor -/

/-- C5: evaluating the code at a batch `[1,10]` containing one donation log
whose publish fails (the broker confirm returns False after retry
exhaustion): the log is simply skipped — `publishedBatch` with a failing
broker returns nothing although the same batch under a healthy broker
publishes the log — yet `index_block_range` still advances the cursor to
`batch_end = 10`, so the batch is never retried and the event is lost,
contradicting the claim that the cursor is advanced only after all
publishes succeed. -/
theorem C5_cursor_advances_despite_publish_failure :
    (index_block_range chainOneLog (fun _ => false) "0xfac" ["0xcafe"] 50 2000
        sync0 1 10).published = [] ∧
    (index_block_range chainOneLog (fun _ => false) "0xfac" ["0xcafe"] 50 2000
        sync0 1 10).sync.lastBlock = 10 ∧
    publishedBatch chainOneLog (fun _ => true) "0xfac" ["0xcafe"] 1 10 = [donLog] := by
  decide

/-! Section: C2 counterexample: duplicate CampaignCreated commits a change -/

/-- C2 counterexample: in `dbFailed` the `CampaignCreated` event row already
exists and the campaign is FAILED (creation consumed, then reconciliation
past the deadline).  Re-delivering the same `CampaignCreated` message hits
the duplicate path — yet the pre-applied campaign upsert is committed when
the `with get_session()` block exits, resetting the campaign to ACTIVE: the
store changed although the claim says a duplicate commits no other
change. -/
theorem C2_duplicate_campaign_created_commits_change :
    eventExists dbFailed 31337 "0xt1" 0 = true ∧
    (handle_event_message 31337 msgCreate dbFailed).2 = Outcome.ack ∧
    (handle_event_message 31337 msgCreate dbFailed).1 ≠ dbFailed ∧
    (findCampaign dbFailed "0xcafe").map Campaign.status = some Status.failed ∧
    (findCampaign (handle_event_message 31337 msgCreate dbFailed).1 "0xcafe").map
      Campaign.status = some Status.active := by
  decide

/-! Section: C7 counterexample: FAILED → WITHDRAWN -/

/-- C7 counterexample: `apply_withdrawn` sets `status=WITHDRAWN`
unconditionally, so consuming a `Withdrawn` event for the FAILED campaign of
`dbFailed` performs the transition FAILED → WITHDRAWN, which is not an edge
of the claimed DAG. -/
theorem C7_failed_to_withdrawn_transition :
    (findCampaign dbFailed "0xcafe").map Campaign.status = some Status.failed ∧
    (findCampaign (handle_event_message 31337 msgWd dbFailed).1 "0xcafe").map
      Campaign.status = some Status.withdrawn ∧
    ¬ dagEdge Status.failed Status.withdrawn := by
  decide

/-! Section: C9 counterexample: refund above the contributed amount -/

/-- C9 counterexample: `apply_refunded` adds the refund amount with no bound
against the contribution, so after the 2·10¹⁸ donation a `Refunded` of
5·10¹⁸ leaves the row with `refunded_wei = 5·10¹⁸ > 2·10¹⁸ =
contributed_wei`, violating the claimed invariant. -/
theorem C9_refund_exceeds_contribution :
    findContribution (handle_event_message 31337 msgRefund db2).1 "0xcafe" "0xd1" =
      some { campaign_address := "0xcafe", donor_address := "0xd1",
             contributed_wei := 2000000000000000000,
             refunded_wei := 5000000000000000000 } ∧
    ¬ contribOK (handle_event_message 31337 msgRefund db2).1 := by
  decide

/-! Section: C10 counterexample: cross-topic logs of one address -/

/-- C10 counterexample: the campaign indexer fetches one `get_logs` stream
per event topic and concatenates them without re-sorting, so for campaign
`0xa` the DonationReceived at block 10 is published before the Withdrawn at
block 5 — the batch is not `(block_number, log_index)` ascending for that
address. -/
theorem C10_batch_not_ordered_per_address :
    publishedBatch chainTwoLogs (fun _ => true) "0xfac" ["0xa"] 1 20 = [dLog, wLog] ∧
    ¬ sameAddrOrdered (publishedBatch chainTwoLogs (fun _ => true) "0xfac" ["0xa"] 1 20) := by
  decide

/-! Section: Helper lemmas: which table each operation touches -/

theorem events_apply_campaign_created (d : EventData) (db : DB) :
    (apply_campaign_created d db).events = db.events := rfl

theorem events_apply_donation_received (d : EventData) (db : DB) :
    (apply_donation_received d db).events = db.events := by
  unfold apply_donation_received updateCampaign updateContribution
  dsimp only
  split
  · rfl
  · split <;> rfl

theorem events_apply_withdrawn (d : EventData) (db : DB) :
    (apply_withdrawn d db).events = db.events := by
  unfold apply_withdrawn updateCampaign
  dsimp only
  split <;> rfl

theorem events_apply_refunded (d : EventData) (db : DB) :
    (apply_refunded d db).events = db.events := by
  unfold apply_refunded updateContribution
  dsimp only
  split <;> rfl

theorem events_apply_event (n : String) (d : EventData) (db : DB) :
    (apply_event n d db).events = db.events := by
  unfold apply_event
  split
  · exact events_apply_campaign_created d db
  · split
    · exact events_apply_donation_received d db
    · split
      · exact events_apply_withdrawn d db
      · split
        · exact events_apply_refunded d db
        · rfl

theorem events_foldl_apply (l : List EventRow) (db : DB) :
    (l.foldl (fun s e => apply_event e.event_name e.event_data s) db).events =
      db.events := by
  induction l generalizing db with
  | nil => rfl
  | cons e t ih => rw [List.foldl_cons, ih, events_apply_event]

theorem events_resetForRollback (addrs : List String) (db : DB) :
    (resetForRollback addrs db).events = db.events := rfl

/-- The events table after a rollback: every in-range non-removed row gets
`removed := true`; nothing else changes. -/
theorem events_handle_rollback (cid fromB toB : Nat) (db : DB) :
    (handle_rollback cid fromB toB db).events =
      db.events.map (fun e =>
        if inRollbackRange cid fromB toB e then { e with removed := true } else e) := by
  unfold handle_rollback
  dsimp only
  split
  · rfl
  · rw [events_foldl_apply, events_resetForRollback]

/-- A removed event row never matches the rollback range filter again. -/
theorem inRollbackRange_of_removed (cid fromB toB : Nat) (e : EventRow)
    (h : e.removed = true) : inRollbackRange cid fromB toB e = false := by
  simp [inRollbackRange, h]

/-- After a rollback, no event of the store matches the range filter. -/
theorem rollback_range_cleared (cid fromB toB : Nat) (db : DB) :
    ∀ e ∈ (handle_rollback cid fromB toB db).events,
      inRollbackRange cid fromB toB e = false := by
  rw [events_handle_rollback]
  intro x hx
  obtain ⟨e, _, rfl⟩ := List.mem_map.1 hx
  by_cases hP : inRollbackRange cid fromB toB e = true
  · rw [if_pos hP]
    exact inRollbackRange_of_removed cid fromB toB _ rfl
  · rw [if_neg hP]
    exact Bool.eq_false_iff.2 hP

/-- A rollback whose range matches no stored event is a no-op. -/
theorem handle_rollback_of_no_match (cid fromB toB : Nat) (db : DB)
    (h : ∀ e ∈ db.events, inRollbackRange cid fromB toB e = false) :
    handle_rollback cid fromB toB db = db := by
  have hfil : db.events.filter (inRollbackRange cid fromB toB) = [] := by
    rw [List.filter_eq_nil_iff]
    intro a ha
    rw [h a ha]
    simp
  have hmap : db.events.map (fun e =>
      if inRollbackRange cid fromB toB e then { e with removed := true } else e) =
        db.events := by
    have hid : ∀ e ∈ db.events, (fun e =>
        if inRollbackRange cid fromB toB e then { e with removed := true } else e) e =
          id e := by
      intro e he
      simp only [id]
      rw [if_neg]
      rw [h e he]
      simp
    rw [List.map_congr_left hid, List.map_id]
  unfold handle_rollback
  simp only [hfil, sortByBlockLog, List.foldr_nil, List.isEmpty_nil, if_true, hmap]

/-! Section: C6: rollback idempotence -/

/-- C6: the rollback procedure is idempotent (and, being a function of the
committed state, deterministic): for every state and block range, running
`handle_rollback` twice yields exactly the state of running it once — the
second run finds no non-removed event in the range, so it marks nothing and
its rebuild replays nothing. -/
theorem C6_rollback_idempotent (cid fromB toB : Nat) (db : DB) :
    handle_rollback cid fromB toB (handle_rollback cid fromB toB db) =
      handle_rollback cid fromB toB db :=
  handle_rollback_of_no_match cid fromB toB _ (rollback_range_cleared cid fromB toB db)

/-! Section: Helper lemmas: the CampaignCreated upsert is idempotent -/

theorem ccTouch_address (d : EventData) (c : Campaign) :
    (ccTouch d c).address = c.address := by
  unfold ccTouch
  split <;> rfl

theorem ccTouch_idem (d : EventData) (c : Campaign) :
    ccTouch d (ccTouch d c) = ccTouch d c := by
  by_cases h : (c.address == lower (d.campaign.getD "")) = true
  · unfold ccTouch
    rw [if_pos h]
    rw [if_pos h]
    cases c with
    | mk a f cr g dl ci st tr w wa =>
        cases st <;> simp
  · unfold ccTouch
    rw [if_neg h, if_neg h]

theorem find?_map_ccTouch (d : EventData) (l : List Campaign) (a : String) :
    (l.map (ccTouch d)).find? (fun c => c.address == a) =
      (l.find? (fun c => c.address == a)).map (ccTouch d) := by
  rw [List.find?_map]
  have hp : ((fun c => c.address == a) ∘ ccTouch d) = (fun c => c.address == a) := by
    funext c
    simp [Function.comp, ccTouch_address]
  rw [hp]

theorem ccTouch_ccRow (d : EventData) : ccTouch d (ccRow d) = ccRow d := by
  unfold ccTouch ccRow
  simp

theorem ccUpd_idem (d : EventData) (l : List Campaign) :
    ccUpd d (ccUpd d l) = ccUpd d l := by
  cases h : l.find? (fun c => c.address == lower (d.campaign.getD "")) with
  | none =>
      have h1 : ccUpd d l = l ++ [ccRow d] := by
        unfold ccUpd
        rw [h]
      have h2 : (l ++ [ccRow d]).find?
          (fun c => c.address == lower (d.campaign.getD "")) = some (ccRow d) := by
        rw [List.find?_append, h]
        simp [ccRow]
      have h3 : ∀ c ∈ l, ccTouch d c = c := by
        intro c hc
        unfold ccTouch
        rw [if_neg (List.find?_eq_none.1 h c hc)]
      have h4 : List.map (ccTouch d) l = l := by
        calc List.map (ccTouch d) l = List.map id l :=
              List.map_congr_left (fun c hc => by rw [h3 c hc]; rfl)
          _ = l := List.map_id l
      rw [h1]
      show ccUpd d (l ++ [ccRow d]) = l ++ [ccRow d]
      unfold ccUpd
      rw [h2]
      dsimp only
      rw [List.map_append, h4]
      rw [show List.map (ccTouch d) [ccRow d] = [ccRow d] by
        simp [ccTouch_ccRow]]
  | some c0 =>
      have h1 : ccUpd d l = l.map (ccTouch d) := by
        unfold ccUpd
        rw [h]
      have h2 : (l.map (ccTouch d)).find?
          (fun c => c.address == lower (d.campaign.getD "")) =
            some (ccTouch d c0) := by
        rw [find?_map_ccTouch, h]
        rfl
      rw [h1]
      show ccUpd d (l.map (ccTouch d)) = l.map (ccTouch d)
      unfold ccUpd
      rw [h2]
      dsimp only
      rw [List.map_map]
      exact List.map_congr_left (fun c _ => ccTouch_idem d c)

/-- Lemma: `apply_campaign_created` leaves a store fixed when the campaign table is
already its own upsert image. -/
theorem apply_cc_stable (d : EventData) (db : DB)
    (h : ccUpd d db.campaigns = db.campaigns) :
    apply_campaign_created d db = db := by
  unfold apply_campaign_created
  rw [h]

theorem campaigns_apply_campaign_created (d : EventData) (db : DB) :
    (apply_campaign_created d db).campaigns = ccUpd d db.campaigns := rfl

theorem chains_apply_campaign_created (d : EventData) (db : DB) :
    (apply_campaign_created d db).chains = db.chains := rfl

theorem contributions_apply_campaign_created (d : EventData) (db : DB) :
    (apply_campaign_created d db).contributions = db.contributions := rfl

/-! Section: Helper lemmas: `eventExists` and event insertion -/

theorem eventExists_congr (db1 db2 : DB) (h : db1.events = db2.events)
    (cid : Nat) (tx : String) (li : Nat) :
    eventExists db1 cid tx li = eventExists db2 cid tx li := by
  unfold eventExists
  rw [h]

theorem eventExists_append_self (db : DB) (cid : Nat) (tx : String) (li : Nat)
    (e : EventRow) (h1 : e.chain_id = cid) (h2 : e.tx_hash = tx)
    (h3 : e.log_index = li) :
    eventExists { db with events := db.events ++ [e] } cid tx li = true := by
  unfold eventExists
  rw [List.any_append]
  simp [h1, h2, h3]

theorem events_preDB (m : EventMsg) (db : DB) : (preDB m db).events = db.events := by
  unfold preDB
  split
  · exact events_apply_campaign_created _ _
  · rfl

/-! Section: Helper lemmas: the four outcomes of `handle_event_message` -/

theorem hem_dup (cid : Nat) (m : EventMsg) (db : DB)
    (h : eventExists (preDB m db) cid m.tx_hash m.log_index = true) :
    handle_event_message cid m db = (preDB m db, Outcome.ack) := by
  unfold handle_event_message insert_event
  dsimp only
  rw [if_pos h]

theorem hem_fkChain (cid : Nat) (m : EventMsg) (db : DB)
    (h1 : eventExists (preDB m db) cid m.tx_hash m.log_index = false)
    (h2 : cid ∉ (preDB m db).chains) :
    handle_event_message cid m db = (db, Outcome.ack) := by
  unfold handle_event_message insert_event
  dsimp only
  rw [if_neg (by simp [h1]), if_pos h2]

theorem hem_fkAddress (cid : Nat) (m : EventMsg) (db : DB)
    (h1 : eventExists (preDB m db) cid m.tx_hash m.log_index = false)
    (h2 : cid ∈ (preDB m db).chains)
    (h3 : findCampaign (preDB m db) (addrOf m) = none) :
    handle_event_message cid m db = (db, Outcome.ack) := by
  unfold handle_event_message insert_event
  dsimp only
  rw [if_neg (by simp [h1]), if_neg (not_not_intro h2), if_pos h3]

theorem hem_inserted (cid : Nat) (m : EventMsg) (db : DB)
    (h1 : eventExists (preDB m db) cid m.tx_hash m.log_index = false)
    (h2 : cid ∈ (preDB m db).chains)
    (h3 : findCampaign (preDB m db) (addrOf m) ≠ none) :
    handle_event_message cid m db =
      (if m.event_type ≠ "CampaignCreated"
       then apply_event m.event_type m.event_data
         { preDB m db with events := (preDB m db).events ++ [insertedRow cid m] }
       else { preDB m db with events := (preDB m db).events ++ [insertedRow cid m] },
       Outcome.ack) := by
  unfold handle_event_message insert_event
  dsimp only
  rw [if_neg (by simp [h1]), if_neg (not_not_intro h2), if_neg h3]
  rfl

/-! Section: C2: duplicate deliveries -/

/-- C2 (amended): when the event row already exists the message is acked,
and for every event type other than `CampaignCreated` nothing else is
committed (a duplicate `CampaignCreated` still re-applies and commits the
campaign upsert, the deviation shown by the counterexample).  Moreover
re-processing the same event message immediately again yields exactly the
state of processing it once, for every message and state. -/
theorem C2_duplicate_ack_and_reprocessing_idempotent (cid : Nat) (m : EventMsg) (db : DB) :
    (eventExists db cid m.tx_hash m.log_index = true →
      (handle_event_message cid m db).2 = Outcome.ack ∧
      (m.event_type ≠ "CampaignCreated" → (handle_event_message cid m db).1 = db)) ∧
    handle_event_message cid m (handle_event_message cid m db).1 =
      handle_event_message cid m db := by
  have hev1 : (preDB m db).events = db.events := events_preDB m db
  have hex1 : eventExists (preDB m db) cid m.tx_hash m.log_index =
      eventExists db cid m.tx_hash m.log_index :=
    eventExists_congr _ _ hev1 cid m.tx_hash m.log_index
  have hpre2 : preDB m (preDB m db) = preDB m db := by
    unfold preDB
    split
    · exact apply_cc_stable _ _
        (by rw [campaigns_apply_campaign_created]; exact ccUpd_idem _ _)
    · rfl
  constructor
  · intro hdup
    have hd : eventExists (preDB m db) cid m.tx_hash m.log_index = true := by
      rw [hex1]; exact hdup
    rw [hem_dup cid m db hd]
    refine ⟨rfl, fun hne => ?_⟩
    show preDB m db = db
    unfold preDB
    rw [if_neg hne]
  · by_cases hdup : eventExists (preDB m db) cid m.tx_hash m.log_index = true
    · rw [hem_dup cid m db hdup]
      show handle_event_message cid m (preDB m db) = (preDB m db, Outcome.ack)
      have hd2 : eventExists (preDB m (preDB m db)) cid m.tx_hash m.log_index = true := by
        rw [hpre2]; exact hdup
      rw [hem_dup cid m (preDB m db) hd2, hpre2]
    · have hf : eventExists (preDB m db) cid m.tx_hash m.log_index = false :=
        Bool.eq_false_iff.2 hdup
      by_cases hch : cid ∈ (preDB m db).chains
      · by_cases hfk : findCampaign (preDB m db) (addrOf m) = none
        · rw [hem_fkAddress cid m db hf hch hfk]
          exact hem_fkAddress cid m db hf hch hfk
        · rw [hem_inserted cid m db hf hch hfk]
          dsimp only
          by_cases hcc : m.event_type = "CampaignCreated"
          · rw [if_neg (not_not_intro hcc)]
            set X := { preDB m db with
              events := (preDB m db).events ++ [insertedRow cid m] } with hX
            show handle_event_message cid m X = (X, Outcome.ack)
            have hpreX : preDB m X = X := by
              unfold preDB
              rw [if_pos hcc]
              refine apply_cc_stable _ _ ?_
              have hXc : X.campaigns = (preDB m db).campaigns := rfl
              have hpc : (preDB m db).campaigns = ccUpd m.event_data db.campaigns := by
                unfold preDB
                rw [if_pos hcc]
                rfl
              rw [hXc, hpc]
              exact ccUpd_idem _ _
            have hdX : eventExists (preDB m X) cid m.tx_hash m.log_index = true := by
              rw [hpreX, hX]
              exact eventExists_append_self _ cid m.tx_hash m.log_index
                (insertedRow cid m) rfl rfl rfl
            rw [hem_dup cid m X hdX, hpreX]
          · rw [if_pos hcc]
            set X := { preDB m db with
              events := (preDB m db).events ++ [insertedRow cid m] } with hX
            set S := apply_event m.event_type m.event_data X with hS
            show handle_event_message cid m S = (S, Outcome.ack)
            have hpreS : preDB m S = S := by
              unfold preDB
              rw [if_neg hcc]
            have hdS : eventExists (preDB m S) cid m.tx_hash m.log_index = true := by
              rw [hpreS]
              rw [eventExists_congr S X (by rw [hS]; exact events_apply_event _ _ _)]
              rw [hX]
              exact eventExists_append_self _ cid m.tx_hash m.log_index
                (insertedRow cid m) rfl rfl rfl
            rw [hem_dup cid m S hdS, hpreS]
      · rw [hem_fkChain cid m db hf hch]
        exact hem_fkChain cid m db hf hch

/-- Witness for C2: the `DonationReceived` of spec scenario 1 is already in
`db2`; re-delivering it is acked, commits nothing, and re-processing is
idempotent. -/
theorem C2_duplicate_witness :
    ((handle_event_message 31337 msgDon db2).2 = Outcome.ack ∧
      (msgDon.event_type ≠ "CampaignCreated" →
        (handle_event_message 31337 msgDon db2).1 = db2)) ∧
    handle_event_message 31337 msgDon (handle_event_message 31337 msgDon db2).1 =
      handle_event_message 31337 msgDon db2 :=
  ⟨(C2_duplicate_ack_and_reprocessing_idempotent 31337 msgDon db2).1 (by decide),
   (C2_duplicate_ack_and_reprocessing_idempotent 31337 msgDon db2).2⟩

/-! Section: C8: reconciliation -/

theorem find?_map_addr_preserving (g : Campaign → Campaign)
    (hg : ∀ c, (g c).address = c.address) (l : List Campaign) (a : String) :
    (l.map g).find? (fun c => c.address == a) =
      (l.find? (fun c => c.address == a)).map g := by
  rw [List.find?_map]
  have hp : ((fun c => c.address == a) ∘ g) = (fun c => c.address == a) := by
    funext c
    simp [Function.comp, hg]
  rw [hp]

/-- Per-row characterization of the reconciliation sweep. -/
theorem findCampaign_reconcile (now : Nat) (db : DB) (a : String) (c : Campaign)
    (hc : findCampaign db a = some c) :
    findCampaign (reconcile now db) a =
      some (if expiredUnmet now c then { c with status := Status.failed } else c) := by
  unfold findCampaign at hc ⊢
  unfold reconcile
  dsimp only
  rw [find?_map_addr_preserving _ (fun c => by
    by_cases h : expiredUnmet now c
    · rw [if_pos h]
    · rw [if_neg h]), hc]
  rfl

/-- C8: reconciliation touches only the campaign table; a campaign row is
set to FAILED exactly when it is ACTIVE with `deadline_ts` strictly before
the current time, `total_raised_wei < goal_wei` and `withdrawn=false`, and
is untouched otherwise; and running reconciliation again on the result (at
the same observed time) changes nothing. -/
theorem C8_reconciliation_exact_and_idempotent (now : Nat) (db : DB) :
    (reconcile now db).chains = db.chains ∧
    (reconcile now db).contributions = db.contributions ∧
    (reconcile now db).events = db.events ∧
    (∀ a c, findCampaign db a = some c →
      findCampaign (reconcile now db) a =
        some (if expiredUnmet now c then { c with status := Status.failed } else c)) ∧
    reconcile now (reconcile now db) = reconcile now db := by
  refine ⟨rfl, rfl, rfl, fun a c hc => findCampaign_reconcile now db a c hc, ?_⟩
  · unfold reconcile
    dsimp only
    rw [List.map_map]
    have hgg : ∀ c ∈ db.campaigns,
        ((fun c => if expiredUnmet now c then { c with status := Status.failed } else c) ∘
          (fun c => if expiredUnmet now c then { c with status := Status.failed } else c)) c =
        (fun c => if expiredUnmet now c then { c with status := Status.failed } else c) c := by
      intro c _
      dsimp only [Function.comp]
      by_cases h : expiredUnmet now c
      · rw [if_pos h, if_neg (by simp [expiredUnmet])]
      · rw [if_neg h, if_neg h]
    rw [List.map_congr_left hgg]

/-- Witness for C8: reconciling `db1` (goal 10·10¹⁸, nothing raised,
deadline in the past) finds the campaign row and marks it FAILED. -/
theorem C8_reconciliation_witness :
    findCampaign (reconcile 1767225600 db1) "0xcafe" =
      some (if expiredUnmet 1767225600 campActive
            then { campActive with status := Status.failed } else campActive) :=
  (C8_reconciliation_exact_and_idempotent 1767225600 db1).2.2.2.1 "0xcafe" campActive
    (by decide)

/-! Section: C7: status transitions -/

theorem campaigns_apply_donation (d : EventData) (db : DB) :
    (apply_donation_received d db).campaigns =
      match findCampaign db (lower (d.campaign.getD "")) with
      | none => db.campaigns
      | some _ => db.campaigns.map (donTouch d) := by
  unfold apply_donation_received updateCampaign updateContribution donTouch
  dsimp only
  cases hf : findCampaign db (lower (d.campaign.getD "")) with
  | none => rfl
  | some c0 =>
      dsimp only
      split <;> rfl

theorem campaigns_apply_withdrawn (d : EventData) (db : DB) :
    (apply_withdrawn d db).campaigns =
      match findCampaign db (lower (d.campaign.getD "")) with
      | none => db.campaigns
      | some _ => db.campaigns.map (wdTouch d) := by
  unfold apply_withdrawn updateCampaign wdTouch
  dsimp only
  cases hf : findCampaign db (lower (d.campaign.getD "")) <;> rfl

theorem campaigns_apply_refunded (d : EventData) (db : DB) :
    (apply_refunded d db).campaigns = db.campaigns := by
  unfold apply_refunded updateContribution
  dsimp only
  split <;> rfl

theorem ccTouch_edge (d : EventData) (c : Campaign) :
    codeEdge c.status (ccTouch d c).status ∧
      (c.status = .withdrawn → (ccTouch d c).status = .withdrawn) := by
  unfold ccTouch
  by_cases h : (c.address == lower (d.campaign.getD "")) = true
  · rw [if_pos h]
    dsimp only
    cases c.status <;> simp [codeEdge]
  · rw [if_neg h]
    cases c.status <;> simp [codeEdge]

theorem donTouch_edge (d : EventData) (c : Campaign) :
    codeEdge c.status (donTouch d c).status ∧
      (c.status = .withdrawn → (donTouch d c).status = .withdrawn) := by
  unfold donTouch
  by_cases h : (c.address == lower (d.campaign.getD "")) = true
  · rw [if_pos h]
    dsimp only
    by_cases h2 : d.newTotalRaised.getD 0 ≥ c.goal_wei ∧ c.status = Status.active
    · rw [if_pos h2]
      refine ⟨Or.inr (Or.inl ⟨h2.2, rfl⟩), fun hw => ?_⟩
      rw [hw] at h2
      exact absurd h2.2 (by simp)
    · rw [if_neg h2]
      exact ⟨Or.inl rfl, fun hw => hw⟩
  · rw [if_neg h]
    exact ⟨Or.inl rfl, fun hw => hw⟩

theorem wdTouch_edge (d : EventData) (c : Campaign) :
    codeEdge c.status (wdTouch d c).status ∧
      (c.status = .withdrawn → (wdTouch d c).status = .withdrawn) := by
  unfold wdTouch
  by_cases h : (c.address == lower (d.campaign.getD "")) = true
  · rw [if_pos h]
    exact ⟨Or.inr (Or.inr (Or.inr (Or.inl rfl))), fun _ => rfl⟩
  · rw [if_neg h]
    exact ⟨Or.inl rfl, fun hw => hw⟩

theorem find?_map_some_of_addr (g : Campaign → Campaign)
    (hg : ∀ c, (g c).address = c.address) (l : List Campaign) (a : String)
    (c c' : Campaign) (h1 : l.find? (fun c => c.address == a) = some c)
    (h2 : (l.map g).find? (fun c => c.address == a) = some c') : c' = g c := by
  rw [find?_map_addr_preserving g hg, h1] at h2
  exact (Option.some_inj.1 h2).symm

theorem edge_refl (c : Campaign) :
    codeEdge c.status c.status ∧ (c.status = .withdrawn → c.status = .withdrawn) :=
  ⟨Or.inl rfl, fun hw => hw⟩

theorem edge_apply_cc (d : EventData) (db : DB) (a : String) (c c' : Campaign)
    (h1 : findCampaign db a = some c)
    (h2 : findCampaign (apply_campaign_created d db) a = some c') :
    codeEdge c.status c'.status ∧ (c.status = .withdrawn → c'.status = .withdrawn) := by
  unfold apply_campaign_created ccUpd at h2
  unfold findCampaign at h1 h2
  cases hf : db.campaigns.find? (fun c => c.address == lower (d.campaign.getD "")) with
  | none =>
      rw [hf] at h2
      dsimp only at h2
      rw [List.find?_append, h1, Option.or_some] at h2
      rw [(Option.some_inj.1 h2).symm]
      exact edge_refl c
  | some c0 =>
      rw [hf] at h2
      dsimp only at h2
      rw [find?_map_some_of_addr (ccTouch d) (ccTouch_address d) db.campaigns a c c' h1 h2]
      exact ccTouch_edge d c

theorem donTouch_address (d : EventData) (c : Campaign) :
    (donTouch d c).address = c.address := by
  unfold donTouch
  split
  · dsimp only
    split <;> rfl
  · rfl

theorem wdTouch_address (d : EventData) (c : Campaign) :
    (wdTouch d c).address = c.address := by
  unfold wdTouch
  split <;> rfl

theorem edge_apply_donation (d : EventData) (db : DB) (a : String) (c c' : Campaign)
    (h1 : findCampaign db a = some c)
    (h2 : findCampaign (apply_donation_received d db) a = some c') :
    codeEdge c.status c'.status ∧ (c.status = .withdrawn → c'.status = .withdrawn) := by
  have hc := campaigns_apply_donation d db
  unfold findCampaign at h1 h2
  rw [hc] at h2
  cases hf : findCampaign db (lower (d.campaign.getD "")) with
  | none =>
      rw [hf] at h2
      dsimp only at h2
      rw [h1] at h2
      rw [(Option.some_inj.1 h2).symm]
      exact edge_refl c
  | some c0 =>
      rw [hf] at h2
      dsimp only at h2
      rw [find?_map_some_of_addr (donTouch d) (donTouch_address d) db.campaigns a c c' h1 h2]
      exact donTouch_edge d c

theorem edge_apply_withdrawn (d : EventData) (db : DB) (a : String) (c c' : Campaign)
    (h1 : findCampaign db a = some c)
    (h2 : findCampaign (apply_withdrawn d db) a = some c') :
    codeEdge c.status c'.status ∧ (c.status = .withdrawn → c'.status = .withdrawn) := by
  have hc := campaigns_apply_withdrawn d db
  unfold findCampaign at h1 h2
  rw [hc] at h2
  cases hf : findCampaign db (lower (d.campaign.getD "")) with
  | none =>
      rw [hf] at h2
      dsimp only at h2
      rw [h1] at h2
      rw [(Option.some_inj.1 h2).symm]
      exact edge_refl c
  | some c0 =>
      rw [hf] at h2
      dsimp only at h2
      rw [find?_map_some_of_addr (wdTouch d) (wdTouch_address d) db.campaigns a c c' h1 h2]
      exact wdTouch_edge d c

theorem edge_apply_refunded (d : EventData) (db : DB) (a : String) (c c' : Campaign)
    (h1 : findCampaign db a = some c)
    (h2 : findCampaign (apply_refunded d db) a = some c') :
    codeEdge c.status c'.status ∧ (c.status = .withdrawn → c'.status = .withdrawn) := by
  unfold findCampaign at h1 h2
  rw [campaigns_apply_refunded, h1] at h2
  rw [(Option.some_inj.1 h2).symm]
  exact edge_refl c

theorem edge_apply_event (ty : String) (d : EventData) (db : DB) (a : String)
    (c c' : Campaign) (h1 : findCampaign db a = some c)
    (h2 : findCampaign (apply_event ty d db) a = some c') :
    codeEdge c.status c'.status ∧ (c.status = .withdrawn → c'.status = .withdrawn) := by
  unfold apply_event at h2
  split at h2
  · exact edge_apply_cc d db a c c' h1 h2
  · split at h2
    · exact edge_apply_donation d db a c c' h1 h2
    · split at h2
      · exact edge_apply_withdrawn d db a c c' h1 h2
      · split at h2
        · exact edge_apply_refunded d db a c c' h1 h2
        · rw [h1] at h2
          rw [(Option.some_inj.1 h2).symm]
          exact edge_refl c

theorem edge_preDB (m : EventMsg) (db : DB) (a : String) (c c' : Campaign)
    (h1 : findCampaign db a = some c)
    (h2 : findCampaign (preDB m db) a = some c') :
    codeEdge c.status c'.status ∧ (c.status = .withdrawn → c'.status = .withdrawn) := by
  unfold preDB at h2
  split at h2
  · exact edge_apply_cc m.event_data db a c c' h1 h2
  · rw [h1] at h2
    rw [(Option.some_inj.1 h2).symm]
    exact edge_refl c

theorem edge_reconcile (now : Nat) (db : DB) (a : String) (c c' : Campaign)
    (h1 : findCampaign db a = some c)
    (h2 : findCampaign (reconcile now db) a = some c') :
    codeEdge c.status c'.status ∧ (c.status = .withdrawn → c'.status = .withdrawn) := by
  have h3 := findCampaign_reconcile now db a c h1
  rw [h2] at h3
  rw [Option.some_inj.1 h3]
  by_cases h : expiredUnmet now c
  · rw [if_pos h]
    refine ⟨Or.inr (Or.inr (Or.inl ⟨h.1, rfl⟩)), fun hw => ?_⟩
    exact absurd h.1 (by rw [hw]; simp)
  · rw [if_neg h]
    exact edge_refl c

/-- C7 (amended): for every state and every non-rollback message (event or
reconciliation), a campaign status change follows an edge of the DAG
`ACTIVE → SUCCESS → WITHDRAWN`, `ACTIVE → FAILED` *extended* with the two
transitions the code actually performs beyond it: `Withdrawn` forces
WITHDRAWN from any status (in particular FAILED → WITHDRAWN), and a
re-delivered `CampaignCreated` resets FAILED → ACTIVE.  Once a campaign is
WITHDRAWN, no non-rollback message changes its status. -/
theorem C7_status_edges_and_withdrawn_absorbing (cid : Nat) (msg : NonRollbackMsg)
    (db : DB) (a : String) (c c' : Campaign)
    (h1 : findCampaign db a = some c)
    (h2 : findCampaign (applyNonRollback cid msg db) a = some c') :
    codeEdge c.status c'.status ∧ (c.status = .withdrawn → c'.status = .withdrawn) := by
  cases msg with
  | recon now =>
      exact edge_reconcile now db a c c' h1 h2
  | event m =>
      dsimp only [applyNonRollback] at h2
      by_cases hdup : eventExists (preDB m db) cid m.tx_hash m.log_index = true
      · rw [hem_dup cid m db hdup] at h2
        exact edge_preDB m db a c c' h1 h2
      · have hf : eventExists (preDB m db) cid m.tx_hash m.log_index = false :=
          Bool.eq_false_iff.2 hdup
        by_cases hch : cid ∈ (preDB m db).chains
        · by_cases hfk : findCampaign (preDB m db) (addrOf m) = none
          · rw [hem_fkAddress cid m db hf hch hfk] at h2
            rw [h1] at h2
            rw [(Option.some_inj.1 h2).symm]
            exact edge_refl c
          · rw [hem_inserted cid m db hf hch hfk] at h2
            dsimp only at h2
            by_cases hcc : m.event_type = "CampaignCreated"
            · rw [if_neg (not_not_intro hcc)] at h2
              exact edge_preDB m db a c c' h1 h2
            · rw [if_pos hcc] at h2
              have hpre : preDB m db = db := by
                unfold preDB
                rw [if_neg hcc]
              have h1X : findCampaign
                  { preDB m db with
                    events := (preDB m db).events ++ [insertedRow cid m] } a = some c := by
                show findCampaign (preDB m db) a = some c
                rw [hpre]
                exact h1
              exact edge_apply_event m.event_type m.event_data _ a c c' h1X h2
        · rw [hem_fkChain cid m db hf hch] at h2
          rw [h1] at h2
          rw [(Option.some_inj.1 h2).symm]
          exact edge_refl c

/-- Witness for C7 (amended): the `Withdrawn` on the FAILED campaign of
`dbFailed` takes the code edge FAILED → WITHDRAWN. -/
theorem C7_status_witness :
    codeEdge campFailedRow.status campWithdrawnRow.status ∧
      (campFailedRow.status = .withdrawn → campWithdrawnRow.status = .withdrawn) :=
  C7_status_edges_and_withdrawn_absorbing 31337 (.event msgWd) dbFailed "0xcafe"
    campFailedRow campWithdrawnRow (by decide) (by decide)

/-! Section: C9: net contribution nonnegativity -/

theorem contribOK_of_contributions_eq (db1 db2 : DB)
    (h : db1.contributions = db2.contributions) (hOK : contribOK db2) :
    contribOK db1 := by
  unfold contribOK at hOK ⊢
  rw [h]
  exact hOK

theorem contributions_apply_withdrawn (d : EventData) (db : DB) :
    (apply_withdrawn d db).contributions = db.contributions := by
  unfold apply_withdrawn updateCampaign
  dsimp only
  split <;> rfl

theorem contributions_apply_donation (d : EventData) (db : DB) :
    (apply_donation_received d db).contributions =
      match findCampaign db (lower (d.campaign.getD "")) with
      | none => db.contributions
      | some _ =>
        match findContribution db (lower (d.campaign.getD "")) (lower (d.donor.getD "")) with
        | none => db.contributions ++
            [{ campaign_address := lower (d.campaign.getD "")
               donor_address := lower (d.donor.getD "")
               contributed_wei := d.amount.getD 0
               refunded_wei := 0 }]
        | some _ => db.contributions.map (fun k =>
            if k.campaign_address == lower (d.campaign.getD "") &&
               k.donor_address == lower (d.donor.getD "")
            then { k with contributed_wei := k.contributed_wei + d.amount.getD 0 }
            else k) := by
  unfold apply_donation_received updateCampaign updateContribution
  dsimp only
  cases hf : findCampaign db (lower (d.campaign.getD "")) with
  | none => rfl
  | some c0 =>
      dsimp only
      cases hg : findContribution db (lower (d.campaign.getD "")) (lower (d.donor.getD "")) <;>
        rfl

theorem contributions_apply_refunded (d : EventData) (db : DB) :
    (apply_refunded d db).contributions =
      match findContribution db (lower (d.campaign.getD "")) (lower (d.donor.getD "")) with
      | none => db.contributions
      | some _ => db.contributions.map (fun k =>
          if k.campaign_address == lower (d.campaign.getD "") &&
             k.donor_address == lower (d.donor.getD "")
          then { k with refunded_wei := k.refunded_wei + d.amount.getD 0 }
          else k) := by
  unfold apply_refunded updateContribution
  dsimp only
  cases hg : findContribution db (lower (d.campaign.getD "")) (lower (d.donor.getD "")) <;>
    rfl

theorem contribOK_apply_donation (d : EventData) (db : DB) (h : contribOK db) :
    contribOK (apply_donation_received d db) := by
  unfold contribOK at h ⊢
  rw [contributions_apply_donation]
  split
  · exact h
  · split
    · intro k hk
      rcases List.mem_append.1 hk with hk1 | hk2
      · exact h k hk1
      · rw [List.mem_singleton.1 hk2]
        exact Nat.zero_le _
    · intro k hk
      rcases List.mem_map.1 hk with ⟨k0, hk0, rfl⟩
      by_cases hcond : (k0.campaign_address == lower (d.campaign.getD "") &&
          k0.donor_address == lower (d.donor.getD "")) = true
      · rw [if_pos hcond]
        exact Nat.le_trans (h k0 hk0) (Nat.le_add_right _ _)
      · rw [if_neg hcond]
        exact h k0 hk0

theorem contribOK_apply_refunded_bounded (d : EventData) (db : DB) (h : contribOK db)
    (hb : ∀ k ∈ db.contributions,
        k.campaign_address = lower (d.campaign.getD "") →
        k.donor_address = lower (d.donor.getD "") →
        k.refunded_wei + d.amount.getD 0 ≤ k.contributed_wei) :
    contribOK (apply_refunded d db) := by
  unfold contribOK at h ⊢
  rw [contributions_apply_refunded]
  split
  · exact h
  · intro k hk
    rcases List.mem_map.1 hk with ⟨k0, hk0, rfl⟩
    by_cases hcond : (k0.campaign_address == lower (d.campaign.getD "") &&
        k0.donor_address == lower (d.donor.getD "")) = true
    · rw [if_pos hcond]
      rw [Bool.and_eq_true] at hcond
      exact hb k0 hk0 (by simpa using hcond.1) (by simpa using hcond.2)
    · rw [if_neg hcond]
      exact h k0 hk0

theorem contribOK_apply_event_nonrefund (ty : String) (d : EventData) (db : DB)
    (hty : ty ≠ "Refunded") (h : contribOK db) : contribOK (apply_event ty d db) := by
  unfold apply_event
  split
  · exact contribOK_of_contributions_eq _ _ rfl h
  · split
    · exact contribOK_apply_donation d db h
    · split
      · exact contribOK_of_contributions_eq _ _ (contributions_apply_withdrawn d db) h
      · exact h

theorem contribOK_resetForRollback (addrs : List String) (db : DB) (h : contribOK db) :
    contribOK (resetForRollback addrs db) := by
  unfold contribOK at h ⊢
  unfold resetForRollback
  dsimp only
  intro k hk
  rcases List.mem_map.1 hk with ⟨k0, hk0, rfl⟩
  by_cases hc : addrs.contains k0.campaign_address = true
  · rw [if_pos hc]
  · rw [if_neg hc]
    exact h k0 hk0

theorem mem_insertByBlockLog (e x : EventRow) (l : List EventRow) :
    x ∈ insertByBlockLog e l ↔ x = e ∨ x ∈ l := by
  induction l with
  | nil => simp [insertByBlockLog]
  | cons y t ih =>
      unfold insertByBlockLog
      split
      · simp only [List.mem_cons, ih]
        tauto
      · simp [List.mem_cons]

theorem mem_sortByBlockLog (x : EventRow) (l : List EventRow) :
    x ∈ sortByBlockLog l ↔ x ∈ l := by
  unfold sortByBlockLog
  induction l with
  | nil => simp
  | cons e t ih => simp [List.foldr_cons, mem_insertByBlockLog, ih]

theorem contribOK_foldl_apply (l : List EventRow) :
    ∀ db : DB, (∀ e ∈ l, e.event_name ≠ "Refunded") → contribOK db →
      contribOK (l.foldl (fun s e => apply_event e.event_name e.event_data s) db) := by
  induction l with
  | nil => exact fun _ _ h => h
  | cons e t ih =>
      intro db hl h
      rw [List.foldl_cons]
      exact ih _ (fun x hx => hl x (List.mem_cons_of_mem e hx))
        (contribOK_apply_event_nonrefund _ _ _ (hl e (List.mem_cons_self e t)) h)

theorem contribOK_handle_rollback (cid fromB toB : Nat) (db : DB) (h : contribOK db)
    (hnoref : ∀ e ∈ db.events, inRollbackRange cid fromB toB e = true →
        e.event_name ≠ "Refunded") :
    contribOK (handle_rollback cid fromB toB db) := by
  unfold handle_rollback
  dsimp only
  split
  · exact contribOK_of_contributions_eq _ _ rfl h
  · refine contribOK_foldl_apply _ _ ?_ ?_
    · intro e he
      have hmem := (mem_sortByBlockLog e _).1 he
      have hf := List.mem_filter.1 hmem
      exact hnoref e hf.1 hf.2
    · exact contribOK_resetForRollback _ _ (contribOK_of_contributions_eq _ _ rfl h)

theorem contributions_preDB (m : EventMsg) (db : DB) :
    (preDB m db).contributions = db.contributions := by
  unfold preDB
  split <;> rfl

theorem contribOK_handle_nonrefund (cid : Nat) (m : EventMsg) (db : DB)
    (hm : m.event_type ≠ "Refunded") (h : contribOK db) :
    contribOK (handle_event_message cid m db).1 := by
  have hpreC := contributions_preDB m db
  by_cases hdup : eventExists (preDB m db) cid m.tx_hash m.log_index = true
  · rw [hem_dup cid m db hdup]
    exact contribOK_of_contributions_eq _ _ hpreC h
  · have hf : eventExists (preDB m db) cid m.tx_hash m.log_index = false :=
      Bool.eq_false_iff.2 hdup
    by_cases hch : cid ∈ (preDB m db).chains
    · by_cases hfk : findCampaign (preDB m db) (addrOf m) = none
      · rw [hem_fkAddress cid m db hf hch hfk]
        exact h
      · rw [hem_inserted cid m db hf hch hfk]
        dsimp only
        by_cases hcc : m.event_type = "CampaignCreated"
        · rw [if_neg (not_not_intro hcc)]
          exact contribOK_of_contributions_eq _ _ hpreC h
        · rw [if_pos hcc]
          exact contribOK_apply_event_nonrefund _ _ _ hm
            (contribOK_of_contributions_eq _ _ hpreC h)
    · rw [hem_fkChain cid m db hf hch]
      exact h

theorem apply_event_refunded (d : EventData) (db : DB) :
    apply_event "Refunded" d db = apply_refunded d db := by
  unfold apply_event
  rw [if_neg (by decide), if_neg (by decide), if_neg (by decide), if_pos rfl]

/-- Folding a replay sequence preserves the invariant when every `Refunded`
of the sequence respects the slack bound at its own application time. -/
theorem contribOK_foldl_slack (l : List EventRow) :
    ∀ db : DB, contribOK db → replayRespectsSlack l db →
      contribOK (l.foldl (fun s e => apply_event e.event_name e.event_data s) db) := by
  induction l with
  | nil => exact fun _ h _ => h
  | cons e t ih =>
      intro db h hb
      rw [List.foldl_cons]
      refine ih _ ?_ hb.2
      by_cases hn : e.event_name = "Refunded"
      · rw [hn, apply_event_refunded]
        exact contribOK_apply_refunded_bounded _ _ h (hb.1 hn)
      · exact contribOK_apply_event_nonrefund _ _ _ hn h

/-- Rollback preserves the invariant when every `Refunded` it re-applies
during the replay respects the slack bound at its application time. -/
theorem contribOK_handle_rollback_slack (cid fromB toB : Nat) (db : DB)
    (h : contribOK db)
    (hb : replayRespectsSlack (rollbackReplayList cid fromB toB db)
        (rollbackResetState cid fromB toB db)) :
    contribOK (handle_rollback cid fromB toB db) := by
  unfold handle_rollback
  dsimp only
  split
  · exact contribOK_of_contributions_eq _ _ rfl h
  · refine contribOK_foldl_slack _ _ ?_ hb
    exact contribOK_resetForRollback _ _ (contribOK_of_contributions_eq _ _ rfl h)

theorem contribOK_handle_refund (cid : Nat) (m : EventMsg) (db : DB)
    (hm : m.event_type = "Refunded") (h : contribOK db)
    (hb : ∀ k ∈ db.contributions,
        k.campaign_address = lower (m.event_data.campaign.getD "") →
        k.donor_address = lower (m.event_data.donor.getD "") →
        k.refunded_wei + m.event_data.amount.getD 0 ≤ k.contributed_wei) :
    contribOK (handle_event_message cid m db).1 := by
  have hcc : m.event_type ≠ "CampaignCreated" := by
    rw [hm]
    decide
  have hpre : preDB m db = db := by
    unfold preDB
    rw [if_neg hcc]
  by_cases hdup : eventExists (preDB m db) cid m.tx_hash m.log_index = true
  · rw [hem_dup cid m db hdup, hpre]
    exact h
  · have hf : eventExists (preDB m db) cid m.tx_hash m.log_index = false :=
      Bool.eq_false_iff.2 hdup
    by_cases hch : cid ∈ (preDB m db).chains
    · by_cases hfk : findCampaign (preDB m db) (addrOf m) = none
      · rw [hem_fkAddress cid m db hf hch hfk]
        exact h
      · rw [hem_inserted cid m db hf hch hfk]
        dsimp only
        rw [if_pos hcc, hm, apply_event_refunded]
        refine contribOK_apply_refunded_bounded m.event_data _ ?_ ?_
        · exact contribOK_of_contributions_eq _ _ (contributions_preDB m db) h
        · intro k hk hka hkd
          rw [show ({ preDB m db with
              events := (preDB m db).events ++ [insertedRow cid m] } : DB).contributions =
                db.contributions from contributions_preDB m db] at hk
          exact hb k hk hka hkd
    · rw [hem_fkChain cid m db hf hch]
      exact h

/-- C9 (amended): the invariant `contributed_wei ≥ refunded_wei` on every
contribution row is preserved by every bus message — event application,
reconciliation and rollback — provided every applied `Refunded` (also the
ones re-applied during a rollback replay) asks back at most the current row
slack `contributed_wei − refunded_wei`; the code itself never
enforces that bound, and the counterexample shows one unconstrained
`Refunded` violating the invariant. -/
theorem C9_net_nonneg_preserved :
    (∀ cid m db, m.event_type ≠ "Refunded" → contribOK db →
        contribOK (handle_event_message cid m db).1) ∧
    (∀ cid m db, m.event_type = "Refunded" → contribOK db →
        (∀ k ∈ db.contributions,
            k.campaign_address = lower (m.event_data.campaign.getD "") →
            k.donor_address = lower (m.event_data.donor.getD "") →
            k.refunded_wei + m.event_data.amount.getD 0 ≤ k.contributed_wei) →
        contribOK (handle_event_message cid m db).1) ∧
    (∀ now db, contribOK db → contribOK (reconcile now db)) ∧
    (∀ cid fromB toB db, contribOK db →
        replayRespectsSlack (rollbackReplayList cid fromB toB db)
          (rollbackResetState cid fromB toB db) →
        contribOK (handle_rollback cid fromB toB db)) :=
  ⟨contribOK_handle_nonrefund,
   contribOK_handle_refund,
   fun _ _ h => contribOK_of_contributions_eq _ _ rfl h,
   contribOK_handle_rollback_slack⟩

/-- Witness for C9: a 1·10¹⁸ refund within the 2·10¹⁸ contribution of the donor
preserves the invariant on `db2`; and a rollback over `[100, 101]` of
`dbRefunded` — whose replay re-applies the 2·10¹⁸ donation and then that
in-slack `Refunded` — preserves it too. -/
theorem C9_net_nonneg_witness :
    contribOK (handle_event_message 31337 msgRefundSmall db2).1 ∧
    contribOK (handle_rollback 31337 100 101 dbRefunded) :=
  ⟨C9_net_nonneg_preserved.2.1 31337 msgRefundSmall db2 (by decide) (by decide) (by decide),
   C9_net_nonneg_preserved.2.2.2 31337 100 101 dbRefunded (by decide) (by decide)⟩

/-! Section: C10: publishing order within a batch -/

theorem mem_getLogs (ch : ChainView) (a t : String) (fromB toB : Nat) (x : ChainLog)
    (hx : x ∈ getLogs ch a t fromB toB) : x.address = a ∧ x.topic = t := by
  unfold getLogs at hx
  have h := (List.mem_filter.1 hx).2
  simp only [Bool.and_eq_true, beq_iff_eq, decide_eq_true_eq] at h
  exact ⟨h.1.1.1, h.1.1.2⟩

theorem sublist_getLogs (ch : ChainView) (a t : String) (fromB toB : Nat) :
    (getLogs ch a t fromB toB).Sublist ch.logs := by
  unfold getLogs
  exact List.filter_sublist _

/-- C10 (amended): provided the node returns its log stream in canonical
`(block_number, log_index)` order and the known campaign addresses are
distinct, any two logs of the same contract address *and the same event
topic* are published in `(block_number, log_index)` ascending order within a
batch.  (Across different event topics of one address the producer publishes
whole per-topic streams one after another, so ascending order does not hold
— the counterexample.) -/
theorem C10_per_addr_topic_ordering (ch : ChainView) (pubOk : ChainLog → Bool)
    (factory : String) (addrs : List String) (fromB toB : Nat)
    (hs : ch.logs.Pairwise chainLogLe) (hnd : addrs.Nodup) :
    sameAddrTopicOrdered (publishedBatch ch pubOk factory addrs fromB toB) := by
  unfold sameAddrTopicOrdered publishedBatch
  dsimp only
  apply List.Pairwise.sublist (List.filter_sublist _)
  rw [List.pairwise_append]
  refine ⟨?_, ?_, ?_⟩
  · refine List.Pairwise.imp ?_
      (List.Pairwise.sublist (sublist_getLogs ch factory "CampaignCreated" fromB toB) hs)
    intro a b hle _
    exact hle
  · rw [List.pairwise_flatMap]
    constructor
    · intro a _
      rw [List.pairwise_flatMap]
      constructor
      · intro t _
        refine List.Pairwise.imp ?_
          (List.Pairwise.sublist (sublist_getLogs ch a t fromB toB) hs)
        intro x y hle _
        exact hle
      · have hne : campaignTopics.Pairwise (fun t1 t2 => t1 ≠ t2) := by decide
        refine hne.imp ?_
        intro t1 t2 hnet x hx y hy hxy
        have hxt := (mem_getLogs ch a t1 fromB toB x hx).2
        have hyt := (mem_getLogs ch a t2 fromB toB y hy).2
        exact absurd (by rw [← hxt, ← hyt]; exact hxy.2) hnet
    · have hnd2 : addrs.Pairwise (fun a1 a2 => a1 ≠ a2) := hnd
      refine hnd2.imp ?_
      intro a1 a2 hnea x hx y hy hxy
      obtain ⟨t1, _, hx1⟩ := List.mem_flatMap.1 hx
      obtain ⟨t2, _, hy1⟩ := List.mem_flatMap.1 hy
      have hxa := (mem_getLogs ch a1 t1 fromB toB x hx1).1
      have hya := (mem_getLogs ch a2 t2 fromB toB y hy1).1
      exact absurd (by rw [← hxa, ← hya]; exact hxy.1) hnea
  · intro x hx y hy hxy
    have hxt := (mem_getLogs ch factory "CampaignCreated" fromB toB x hx).2
    obtain ⟨a2, _, hy2⟩ := List.mem_flatMap.1 hy
    obtain ⟨t2, ht2, hy1⟩ := List.mem_flatMap.1 hy2
    have hyt := (mem_getLogs ch a2 t2 fromB toB y hy1).2
    rw [← hyt, ← hxy.2, hxt] at ht2
    exact absurd ht2 (by decide)

/-- Witness for C10 (amended): the two-log chain of the counterexample is in
canonical order and has one known campaign address, so the published batch
is ordered per (address, topic). -/
theorem C10_per_addr_topic_witness :
    sameAddrTopicOrdered (publishedBatch chainTwoLogs (fun _ => true) "0xfac" ["0xa"] 1 20) :=
  C10_per_addr_topic_ordering chainTwoLogs (fun _ => true) "0xfac" ["0xa"] 1 20
    (by decide) (by decide)

end CF
